import Mathlib

/-!
Shallow embedding of the caffe2 operator-schema subsystem
(`caffe2/core/operator_schema.h` plus the `Sum` registration in
`caffe2/operators/utility_ops.cc`).

The header declares the `OpSchema` class with its default-initialized
function-valued fields, the inline query methods (`InferTensor`,
`InferCost`, `InferDevice`), and the inline registry
(`OpSchemaRegistry::NewSchema` / `OpSchemaRegistry::Schema`).  Those are
embedded directly from the source.  The out-of-line bodies
(`OpSchema::Verify`, the builder setters, `OpSchema::CalculateOutput`)
live in `operator_schema.cc`, which is not part of this fragment; they
are modelled from the specification, each marked `Modelled from the
spec:` in its doc comment.

C++ `int` is embedded as `Int`; machine overflow never arises in the
behaviours considered here (counts are list lengths, the sentinel is -1).
A fatal `abort()` is embedded as an `Except.error` result carrying the
diagnostic, and the cost-inference `CAFFE_THROW` as an `Except.error`
string.
-/

namespace caffe2

/-- C++ `INT_MAX`, used by `NumInputs(1, INT_MAX)` in the Sum registration. -/
def INT_MAX : Int := 2147483647

/-- From the header: `constexpr int kCannotComputeNumOutputs = -1;`,
the sentinel returned by `OpSchema::CalculateOutput` when the number of
outputs cannot be determined. -/
def kCannotComputeNumOutputs : Int := -1

/-- External protobuf type `TensorShape`: dimension sizes, an element-type
tag, and an unknown-shape flag.  Proto fields default to empty / 0 / false. -/
structure TensorShape where
  dims : List Int := []
  data_type : Int := 0
  unknown_shape : Bool := false
deriving DecidableEq, Repr, Inhabited

/-- External protobuf type `DeviceOption`; only its value identity matters
here.  A default-constructed `DeviceOption()` is `{}`. -/
structure DeviceOption where
  device_type : Int := 0
deriving DecidableEq, Repr, Inhabited

/-- External protobuf type `OperatorDef`: an operator invocation, with a
type name, ordered input and output blob names, and an optional device
option.  Two references alias the same storage exactly when they are the
same blob name. -/
structure OperatorDef where
  type : String := ""
  inputs : List String := []
  outputs : List String := []
  device_option : Option DeviceOption := none
deriving DecidableEq, Repr, Inhabited

/-- `def.input_size()`. -/
def OperatorDef.input_size (d : OperatorDef) : Int := d.inputs.length

/-- `def.output_size()`. -/
def OperatorDef.output_size (d : OperatorDef) : Int := d.outputs.length

/-- `OpSchema::Cost`: flops and total bytes moved (both `size_t`). -/
structure Cost where
  flops : Nat
  bytes_moved : Nat
deriving DecidableEq, Repr

/-- Default value of `tensor_inference_function_` (header, lines 278-287):
for each declared output push a `TensorShape` with `unknown_shape` set. -/
def defaultTensorInference : OperatorDef → List TensorShape → List TensorShape :=
  fun d _ => (List.range d.outputs.length).map (fun _ => { unknown_shape := true })

/-- Default value of `cost_inference_function_` (header, lines 288-292),
bound to `DefaultConstInferenceFunction`, which does
`CAFFE_THROW("No cost inference function registered.")`; the throw is
embedded as an `Except.error`. -/
def defaultCostInference : OperatorDef → List TensorShape → Except String Cost :=
  fun _ _ => .error "No cost inference function registered."

/-- Default value of `device_inference_function_` (header, lines 293-300):
every input and output is placed on the device option of the invocation, or a
default-constructed `DeviceOption()` when none is declared. -/
def defaultDeviceInference : OperatorDef → List DeviceOption × List DeviceOption :=
  fun d =>
    let op_device := match d.device_option with
      | some dev => dev
      | none => {}
    (d.inputs.map (fun _ => op_device), d.outputs.map (fun _ => op_device))

/-- `class OpSchema`: the declarative contract for one operator type.
Field defaults are exactly the in-class initializers of the header
(lines 253-300); `calculate_output_` is a default-constructed
`std::function`, i.e. unset, embedded as `none`. -/
structure OpSchema where
  file : String := "unknown"
  line : Int := 0
  doc : String := ""
  arg_desc : List (String × String) := []
  input_desc : List (Int × String × String) := []
  output_desc : List (Int × String × String) := []
  min_input : Int := 0
  max_input : Int := INT_MAX
  min_output : Int := 0
  max_output : Int := INT_MAX
  private_op : Bool := false
  inputs_can_cross_devices : Bool := false
  num_inputs_allowed : Int → Bool := fun _ => true
  num_outputs_allowed : Int → Bool := fun _ => true
  num_inputs_outputs_allowed : Int → Int → Bool := fun _ _ => true
  calculate_output : Option (Int → Int) := none
  inplace_allowed : Int → Int → Bool := fun _ _ => false
  inplace_enforced : Int → Int → Bool := fun _ _ => false
  tensor_inference_function : OperatorDef → List TensorShape → List TensorShape :=
    defaultTensorInference
  cost_inference_function : OperatorDef → List TensorShape → Except String Cost :=
    defaultCostInference
  device_inference_function : OperatorDef → List DeviceOption × List DeviceOption :=
    defaultDeviceInference

/-- `OpSchema(file, line)`: the constructor used by the registry. -/
def OpSchema.ofSite (file : String) (line : Int) : OpSchema :=
  { file := file, line := line }

/-- Modelled from the spec: `NumInputs(n)` ("A single input." overload,
body in operator_schema.cc) replaces the input-count predicate wholesale
with acceptance of exactly `n`. -/
def OpSchema.NumInputs (s : OpSchema) (n : Int) : OpSchema :=
  { s with num_inputs_allowed := fun x => x == n }

/-- Modelled from the spec: `NumInputs(min, max)` (body in
operator_schema.cc) replaces the input-count predicate with the inclusive
range check. -/
def OpSchema.NumInputsRange (s : OpSchema) (lo hi : Int) : OpSchema :=
  { s with num_inputs_allowed := fun x => lo ≤ x && x ≤ hi }

/-- Modelled from the spec: `NumInputs(predicate)` (body in
operator_schema.cc) replaces the input-count predicate with the supplied
function. -/
def OpSchema.NumInputsPred (s : OpSchema) (f : Int → Bool) : OpSchema :=
  { s with num_inputs_allowed := f }

/-- Modelled from the spec: `NumOutputs(n)` (body in operator_schema.cc)
replaces the output-count predicate wholesale with acceptance of exactly
`n`. -/
def OpSchema.NumOutputs (s : OpSchema) (n : Int) : OpSchema :=
  { s with num_outputs_allowed := fun x => x == n }

/-- Modelled from the spec: `NumInputsOutputs(func)` (body in
operator_schema.cc) sets the joint (inputCount, outputCount) predicate. -/
def OpSchema.NumInputsOutputs (s : OpSchema) (f : Int → Int → Bool) : OpSchema :=
  { s with num_inputs_outputs_allowed := f }

/-- Modelled from the spec: `OutputCalculator(calc)` (body in
operator_schema.cc) sets the output-count calculator used by
`CalculateOutput`. -/
def OpSchema.OutputCalculator (s : OpSchema) (c : Int → Int) : OpSchema :=
  { s with calculate_output := some c }

/-- Modelled from the spec: `SameNumberOfOutput()` (body in
operator_schema.cc) is sugar for the identity output calculator. -/
def OpSchema.SameNumberOfOutput (s : OpSchema) : OpSchema :=
  s.OutputCalculator (fun n => n)

/-- Modelled from the spec: `AllowInplace(set)` (body in
operator_schema.cc) sets the aliasing-permitted predicate to membership
in the given set of (input index, output index) pairs. -/
def OpSchema.AllowInplace (s : OpSchema) (pairs : List (Int × Int)) : OpSchema :=
  { s with inplace_allowed := fun i j => pairs.contains (i, j) }

/-- Modelled from the spec: `EnforceInplace(set)` (body in
operator_schema.cc) sets the aliasing-required predicate to membership
in the given set of (input index, output index) pairs. -/
def OpSchema.EnforceInplace (s : OpSchema) (pairs : List (Int × Int)) : OpSchema :=
  { s with inplace_enforced := fun i j => pairs.contains (i, j) }

/-- Modelled from the spec: `TensorInferenceFunction(function)` (body in
operator_schema.cc) replaces the shape/type inference function. -/
def OpSchema.TensorInferenceFunction (s : OpSchema)
    (f : OperatorDef → List TensorShape → List TensorShape) : OpSchema :=
  { s with tensor_inference_function := f }

/-- Modelled from the spec: `IdenticalTypeAndShapeOfInput(idx)` (body in
operator_schema.cc) is sugar producing one output shape identical to
input `idx`. -/
def OpSchema.IdenticalTypeAndShapeOfInput (s : OpSchema) (idx : Nat) : OpSchema :=
  s.TensorInferenceFunction (fun _ ins => [ins.getD idx {}])

/-- Modelled from the spec: `CostInferenceFunction(function)` (body in
operator_schema.cc) replaces the cost function; a configured function
always succeeds, so it is stored wrapped in `Except.ok`. -/
def OpSchema.CostInferenceFunction (s : OpSchema)
    (f : OperatorDef → List TensorShape → Cost) : OpSchema :=
  { s with cost_inference_function := fun d ts => .ok (f d ts) }

/-- Modelled from the spec: `DeviceInferenceFunction(function)` (body in
operator_schema.cc) replaces the device-placement function. -/
def OpSchema.DeviceInferenceFunction (s : OpSchema)
    (f : OperatorDef → List DeviceOption × List DeviceOption) : OpSchema :=
  { s with device_inference_function := f }

/-- Modelled from the spec: `SetDoc(doc)` (body in operator_schema.cc),
a purely descriptive setter. -/
def OpSchema.SetDoc (s : OpSchema) (doc : String) : OpSchema :=
  { s with doc := doc }

/-- Modelled from the spec: `Input(n, name, description)` (body in
operator_schema.cc), a purely descriptive setter recording the triple. -/
def OpSchema.Input (s : OpSchema) (n : Int) (name description : String) : OpSchema :=
  { s with input_desc := s.input_desc ++ [(n, name, description)] }

/-- Modelled from the spec: `Output(n, name, description)` (body in
operator_schema.cc), a purely descriptive setter recording the triple. -/
def OpSchema.Output (s : OpSchema) (n : Int) (name description : String) : OpSchema :=
  { s with output_desc := s.output_desc ++ [(n, name, description)] }

/-- Modelled from the spec: `InputsCanCrossDevices()` (body in
operator_schema.cc) sets the corresponding flag. -/
def OpSchema.InputsCanCrossDevices (s : OpSchema) : OpSchema :=
  { s with inputs_can_cross_devices := true }

/-- Modelled from the spec: `Verify(def)` (body in operator_schema.cc)
checks (a) the joint input/output-count predicate, (b) the input-count
predicate, (c) the output-count predicate, (d) every (input, output)
pair aliasing the same blob is permitted by `inplace_allowed`, and
(e) every pair required by `inplace_enforced` is actually aliased.
All checks must pass. -/
def OpSchema.Verify (s : OpSchema) (d : OperatorDef) : Bool :=
  s.num_inputs_outputs_allowed d.input_size d.output_size &&
  s.num_inputs_allowed d.input_size &&
  s.num_outputs_allowed d.output_size &&
  (List.range d.inputs.length).all (fun i =>
    (List.range d.outputs.length).all (fun j =>
      (!(d.inputs.getD i "" == d.outputs.getD j "") ||
        s.inplace_allowed (i : Int) (j : Int)) &&
      (!(s.inplace_enforced (i : Int) (j : Int)) ||
        (d.inputs.getD i "" == d.outputs.getD j ""))))

/-- Header, lines 157-161: `InferTensor` applies the stored tensor
inference function. -/
def OpSchema.InferTensor (s : OpSchema) (d : OperatorDef)
    (input_type_shape : List TensorShape) : List TensorShape :=
  s.tensor_inference_function d input_type_shape

/-- Header, lines 184-188: `InferCost` applies the stored cost inference
function (which throws when unconfigured, hence the `Except`). -/
def OpSchema.InferCost (s : OpSchema) (d : OperatorDef)
    (input_tensor_shape : List TensorShape) : Except String Cost :=
  s.cost_inference_function d input_tensor_shape

/-- Header, lines 241-244: `InferDevice` applies the stored device
inference function. -/
def OpSchema.InferDevice (s : OpSchema) (d : OperatorDef) :
    List DeviceOption × List DeviceOption :=
  s.device_inference_function d

/-- Modelled from the spec: `CalculateOutput(num_input)` (body in
operator_schema.cc) applies the configured output calculator, or signals
"cannot compute" with the `kCannotComputeNumOutputs` sentinel when none
is configured. -/
def OpSchema.CalculateOutput (s : OpSchema) (num_input : Int) : Int :=
  match s.calculate_output with
  | some c => c num_input
  | none => kCannotComputeNumOutputs

/-- The diagnostic emitted to `std::cerr` by `OpSchemaRegistry::NewSchema`
on a duplicate registration, naming both registration sites, just before
`abort()`. -/
structure DuplicateSchemaDiagnostic where
  key : String
  newFile : String
  newLine : Int
  oldFile : String
  oldLine : Int
deriving DecidableEq, Repr

/-- The backing `CaffeMap<string, OpSchema>` of the registry (a keyed map),
embedded as an association list with at most one entry per key. -/
abbrev Registry := List (String × OpSchema)

/-- Header, lines 308-322: `OpSchemaRegistry::NewSchema(key, file, line)`.
If `key` is already present it prints the diagnostic naming both
registration sites and calls `abort()` — embedded as `Except.error`
carrying the diagnostic, with no successor registry (the existing entry
is untouched).  Otherwise it emplaces a fresh `OpSchema(file, line)`
under `key` and returns it. -/
def OpSchemaRegistry.NewSchema (m : Registry) (key file : String) (line : Int) :
    Except DuplicateSchemaDiagnostic (Registry × OpSchema) :=
  match List.lookup key m with
  | some schema =>
      .error { key := key, newFile := file, newLine := line,
               oldFile := schema.file, oldLine := schema.line }
  | none =>
      .ok (m ++ [(key, OpSchema.ofSite file line)], OpSchema.ofSite file line)

/-- Header, lines 324-331: `OpSchemaRegistry::Schema(key)` returns a
pointer to the registered schema, or `nullptr` (here `none`) when the key
is absent; it never aborts or throws. -/
def OpSchemaRegistry.Schema (m : Registry) (key : String) : Option OpSchema :=
  List.lookup key m

/-- The `Sum` schema exactly as registered in
`caffe2/operators/utility_ops.cc`:
`OPERATOR_SCHEMA(Sum).NumInputs(1, INT_MAX).NumOutputs(1)
.AllowInplace({{0, 0}}).InputsCanCrossDevices()
.IdenticalTypeAndShapeOfInput(0).SetDoc(...).Input(0, ...).Output(0, ...)`. -/
def sumSchema : OpSchema :=
  ((((((((OpSchema.ofSite "caffe2/operators/utility_ops.cc" 6).NumInputsRange 1
      INT_MAX).NumOutputs 1).AllowInplace
      [(0, 0)]).InputsCanCrossDevices).IdenticalTypeAndShapeOfInput
      0).SetDoc "Element-wise sum of each of the input tensors.").Input 0 "data_0"
      "First of the input tensors. Can be inplace.").Output 0 "sum"
      "Output tensor. Same dimension as inputs."

/-! Helper lemmas about association-list lookup, used for the registry
theorems. -/

theorem lookup_append {α β : Type} [BEq α] (l1 l2 : List (α × β)) (k : α) :
    List.lookup k (l1 ++ l2) = (List.lookup k l1).or (List.lookup k l2) := by
  induction l1 with
  | nil => simp [List.lookup]
  | cons p t ih =>
    obtain ⟨a, b⟩ := p
    simp only [List.cons_append, List.lookup]
    cases h : k == a <;> simp [ih]

theorem lookup_single_eq {α β : Type} [BEq α] [LawfulBEq α] (k : α) (v : β) :
    List.lookup k ([(k, v)] : List (α × β)) = some v := by
  simp [List.lookup]

theorem lookup_single_ne {α β : Type} [BEq α] [LawfulBEq α] (k a : α) (v : β)
    (h : k ≠ a) : List.lookup k ([(a, v)] : List (α × β)) = none := by
  have hb : (k == a) = false := beq_eq_false_iff_ne.mpr h
  simp [List.lookup, hb]

/-- C1: if `NewSchema` is called with a name already present in the
registry, it produces the diagnostic naming both registration sites (file
and line of the existing and of the new registration) and aborts — here,
returns `Except.error` with that diagnostic and no successor registry, so
the previously registered schema is never overwritten. -/
theorem newSchema_duplicate_diagnostic_and_abort (m : Registry) (key file : String)
    (line : Int) (s : OpSchema) (h : List.lookup key m = some s) :
    OpSchemaRegistry.NewSchema m key file line =
      .error { key := key, newFile := file, newLine := line,
               oldFile := s.file, oldLine := s.line } := by
  simp [OpSchemaRegistry.NewSchema, h]

/-- Witness for C1 at a concrete registry holding "Sum". -/
theorem newSchema_duplicate_witness :
    OpSchemaRegistry.NewSchema [("Sum", OpSchema.ofSite "f0" 10)] "Sum" "f1" 20 =
      .error { key := "Sum", newFile := "f1", newLine := 20,
               oldFile := "f0", oldLine := 10 } :=
  newSchema_duplicate_diagnostic_and_abort [("Sum", OpSchema.ofSite "f0" 10)] "Sum" "f1" 20
    (OpSchema.ofSite "f0" 10) rfl

/-- Restatement of `Verify` as the conjunction of its five conditions. -/
theorem verify_eq_true_iff (s : OpSchema) (d : OperatorDef) :
    s.Verify d = true ↔
      (s.num_inputs_outputs_allowed d.input_size d.output_size = true ∧
       s.num_inputs_allowed d.input_size = true ∧
       s.num_outputs_allowed d.output_size = true ∧
       (∀ i ∈ List.range d.inputs.length, ∀ j ∈ List.range d.outputs.length,
         d.inputs.getD i "" = d.outputs.getD j "" →
           s.inplace_allowed (i : Int) (j : Int) = true) ∧
       (∀ i ∈ List.range d.inputs.length, ∀ j ∈ List.range d.outputs.length,
         s.inplace_enforced (i : Int) (j : Int) = true →
           d.inputs.getD i "" = d.outputs.getD j "")) := by
  simp only [OpSchema.Verify, Bool.and_eq_true, List.all_eq_true, Bool.or_eq_true,
    Bool.not_eq_true', beq_iff_eq, beq_eq_false_iff_ne, ne_eq]
  constructor
  · rintro ⟨⟨⟨h1, h2⟩, h3⟩, h4⟩
    refine ⟨h1, h2, h3, ?_, ?_⟩ <;> intro i hi j hj
    · intro heq
      rcases (h4 i hi j hj).1 with h | h
      · exact absurd heq h
      · exact h
    · intro henf
      rcases (h4 i hi j hj).2 with h | h
      · rw [henf] at h; exact absurd h (by simp)
      · exact h
  · rintro ⟨h1, h2, h3, h4, h5⟩
    refine ⟨⟨⟨h1, h2⟩, h3⟩, ?_⟩
    intro i hi j hj
    constructor
    · by_cases heq : d.inputs.getD i "" = d.outputs.getD j ""
      · exact Or.inr (h4 i hi j hj heq)
      · exact Or.inl heq
    · by_cases henf : s.inplace_enforced (i : Int) (j : Int) = true
      · exact Or.inr (h5 i hi j hj henf)
      · exact Or.inl (by simpa using henf)

/-- C2: `Verify` returns true exactly when the joint count predicate, the
input-count predicate, the output-count predicate, permission of every
actually aliased (input, output) pair, and actual aliasing of every
required pair all hold; and for a schema whose input count is fixed to
exactly 1 and no other constraints, `Verify` accepts an invocation with
exactly 1 input (and no aliased pair) regardless of output count, and
rejects invocations with 0 or 2 inputs. -/
theorem verify_conjunction_and_fixed_one_input (s : OpSchema) (d : OperatorDef) :
    (s.Verify d = true ↔
      (s.num_inputs_outputs_allowed d.input_size d.output_size = true ∧
       s.num_inputs_allowed d.input_size = true ∧
       s.num_outputs_allowed d.output_size = true ∧
       (∀ i ∈ List.range d.inputs.length, ∀ j ∈ List.range d.outputs.length,
         d.inputs.getD i "" = d.outputs.getD j "" →
           s.inplace_allowed (i : Int) (j : Int) = true) ∧
       (∀ i ∈ List.range d.inputs.length, ∀ j ∈ List.range d.outputs.length,
         s.inplace_enforced (i : Int) (j : Int) = true →
           d.inputs.getD i "" = d.outputs.getD j ""))) ∧
    (∀ e : OperatorDef, e.inputs.length = 1 →
      (∀ i ∈ List.range e.inputs.length, ∀ j ∈ List.range e.outputs.length,
        e.inputs.getD i "" ≠ e.outputs.getD j "") →
      (({} : OpSchema).NumInputs 1).Verify e = true) ∧
    (∀ e : OperatorDef, e.inputs.length = 0 ∨ e.inputs.length = 2 →
      (({} : OpSchema).NumInputs 1).Verify e = false) := by
  refine ⟨verify_eq_true_iff s d, ?_, ?_⟩
  · intro e h1 h2
    refine (verify_eq_true_iff _ e).mpr ⟨rfl, ?_, rfl, ?_, ?_⟩
    · simp [OpSchema.NumInputs, OperatorDef.input_size, h1]
    · intro i hi j hj heq
      exact absurd heq (h2 i hi j hj)
    · intro i hi j hj henf
      exact absurd henf (by simp [OpSchema.NumInputs])
  · intro e h
    rcases h with h | h <;>
      simp [OpSchema.Verify, OpSchema.NumInputs, OperatorDef.input_size, h]

/-- Witness for C2: the fixed-one-input schema accepts one concrete
invocation with 1 input and 2 outputs and rejects one with 2 inputs. -/
theorem verify_fixed_one_input_witness :
    (({} : OpSchema).NumInputs 1).Verify { inputs := ["x"], outputs := ["y", "z"] } = true ∧
    (({} : OpSchema).NumInputs 1).Verify { inputs := ["x", "w"], outputs := ["y"] } = false :=
  ⟨(verify_conjunction_and_fixed_one_input {} {}).2.1
      { inputs := ["x"], outputs := ["y", "z"] } rfl (by decide),
   (verify_conjunction_and_fixed_one_input {} {}).2.2
      { inputs := ["x", "w"], outputs := ["y"] } (Or.inr rfl)⟩

/-- C3: `Schema` (lookup) is a total function that never aborts: an
absent name yields `none`; registering two distinct fresh names succeeds
and both are independently retrievable, each returning exactly the
schema that was registered under it. -/
theorem schema_lookup_total_and_distinct_retrievable (m : Registry)
    (k1 k2 kabsent f1 f2 : String) (l1 l2 : Int)
    (h1 : List.lookup k1 m = none) (h2 : List.lookup k2 m = none)
    (habs : List.lookup kabsent m = none) (hne : k1 ≠ k2) :
    OpSchemaRegistry.Schema m kabsent = none ∧
    OpSchemaRegistry.NewSchema m k1 f1 l1 =
      .ok (m ++ [(k1, OpSchema.ofSite f1 l1)], OpSchema.ofSite f1 l1) ∧
    OpSchemaRegistry.NewSchema (m ++ [(k1, OpSchema.ofSite f1 l1)]) k2 f2 l2 =
      .ok (m ++ [(k1, OpSchema.ofSite f1 l1)] ++ [(k2, OpSchema.ofSite f2 l2)],
           OpSchema.ofSite f2 l2) ∧
    OpSchemaRegistry.Schema
        (m ++ [(k1, OpSchema.ofSite f1 l1)] ++ [(k2, OpSchema.ofSite f2 l2)]) k1 =
      some (OpSchema.ofSite f1 l1) ∧
    OpSchemaRegistry.Schema
        (m ++ [(k1, OpSchema.ofSite f1 l1)] ++ [(k2, OpSchema.ofSite f2 l2)]) k2 =
      some (OpSchema.ofSite f2 l2) := by
  refine ⟨habs, ?_, ?_, ?_, ?_⟩
  · simp [OpSchemaRegistry.NewSchema, h1]
  · have hk2 : List.lookup k2 (m ++ [(k1, OpSchema.ofSite f1 l1)]) = none := by
      rw [lookup_append, h2, lookup_single_ne _ _ _ (Ne.symm hne)]
      rfl
    simp [OpSchemaRegistry.NewSchema, hk2]
  · show List.lookup k1 _ = _
    rw [lookup_append, lookup_append, h1, lookup_single_eq]
    rfl
  · show List.lookup k2 _ = _
    rw [lookup_append, lookup_append, h2,
      lookup_single_ne _ _ _ (Ne.symm hne), lookup_single_eq]
    rfl

/-- Witness for C3: registering "Relu" then "Sum" into the empty registry
and looking both up, plus a lookup of the absent name "Conv". -/
theorem schema_lookup_witness :
    OpSchemaRegistry.Schema [] "Conv" = none ∧
    OpSchemaRegistry.NewSchema [] "Relu" "fa" 1 =
      .ok ([] ++ [("Relu", OpSchema.ofSite "fa" 1)], OpSchema.ofSite "fa" 1) ∧
    OpSchemaRegistry.NewSchema ([] ++ [("Relu", OpSchema.ofSite "fa" 1)]) "Sum" "fb" 2 =
      .ok ([] ++ [("Relu", OpSchema.ofSite "fa" 1)] ++ [("Sum", OpSchema.ofSite "fb" 2)],
           OpSchema.ofSite "fb" 2) ∧
    OpSchemaRegistry.Schema
        ([] ++ [("Relu", OpSchema.ofSite "fa" 1)] ++ [("Sum", OpSchema.ofSite "fb" 2)]) "Relu" =
      some (OpSchema.ofSite "fa" 1) ∧
    OpSchemaRegistry.Schema
        ([] ++ [("Relu", OpSchema.ofSite "fa" 1)] ++ [("Sum", OpSchema.ofSite "fb" 2)]) "Sum" =
      some (OpSchema.ofSite "fb" 2) :=
  schema_lookup_total_and_distinct_retrievable [] "Relu" "Sum" "Conv" "fa" "fb" 1 2
    rfl rfl rfl (by decide)

/-- C4: with the tensor inference function left at its default,
`InferTensor` returns exactly one shape per declared output, each with
the unknown-shape flag set, for every invocation and input-shape list. -/
theorem inferTensor_default_unknown_shapes (s : OpSchema) (d : OperatorDef)
    (ts : List TensorShape) (h : s.tensor_inference_function = defaultTensorInference) :
    (s.InferTensor d ts).length = d.outputs.length ∧
    (s.InferTensor d ts).all (fun o => o.unknown_shape) = true := by
  simp [OpSchema.InferTensor, h, defaultTensorInference]

/-- Witness for C4: an invocation with 3 declared outputs yields 3
unknown-shape descriptors. -/
theorem inferTensor_default_witness :
    (({} : OpSchema).InferTensor { outputs := ["a", "b", "c"] } []).length = 3 ∧
    (({} : OpSchema).InferTensor { outputs := ["a", "b", "c"] } []).all
      (fun o => o.unknown_shape) = true :=
  inferTensor_default_unknown_shapes {} { outputs := ["a", "b", "c"] } [] rfl

/-- C5: with the cost inference function left at its default, `InferCost`
fails with the configuration error "No cost inference function
registered." for every invocation and input-shape list; after
`CostInferenceFunction(f)`, `InferCost` returns exactly the output of `f`
on the same arguments. -/
theorem inferCost_default_error_configured_exact :
    (∀ (s : OpSchema) (d : OperatorDef) (ts : List TensorShape),
      s.cost_inference_function = defaultCostInference →
      s.InferCost d ts = .error "No cost inference function registered.") ∧
    (∀ (s : OpSchema) (f : OperatorDef → List TensorShape → Cost)
      (d : OperatorDef) (ts : List TensorShape),
      (s.CostInferenceFunction f).InferCost d ts = .ok (f d ts)) := by
  constructor
  · intro s d ts h
    simp [OpSchema.InferCost, h, defaultCostInference]
  · intro s f d ts
    rfl

/-- Witness for C5: the default schema errors, a configured one returns
the configured cost. -/
theorem inferCost_witness :
    ({} : OpSchema).InferCost {} [] = .error "No cost inference function registered." ∧
    (({} : OpSchema).CostInferenceFunction
        (fun _ _ => { flops := 7, bytes_moved := 9 })).InferCost {} [] =
      .ok { flops := 7, bytes_moved := 9 } :=
  ⟨inferCost_default_error_configured_exact.1 {} {} [] rfl,
   inferCost_default_error_configured_exact.2 {}
     (fun _ _ => { flops := 7, bytes_moved := 9 }) {} []⟩

/-- C6: with no output calculator configured (neither `OutputCalculator`
nor `SameNumberOfOutput`), `CalculateOutput` returns the sentinel
`kCannotComputeNumOutputs` for every input count, without aborting. -/
theorem calculateOutput_unconfigured_sentinel (s : OpSchema) (n : Int)
    (h : s.calculate_output = none) :
    s.CalculateOutput n = kCannotComputeNumOutputs := by
  simp [OpSchema.CalculateOutput, h]

/-- Witness for C6 at the default schema and input count 7. -/
theorem calculateOutput_unconfigured_witness :
    ({} : OpSchema).CalculateOutput 7 = kCannotComputeNumOutputs :=
  calculateOutput_unconfigured_sentinel {} 7 rfl

/-- C7: with the device inference function left at its default,
`InferDevice` returns one list per side whose lengths are the input and
output counts of the invocation, every entry being the declared device
option of the invocation, or a default-constructed `DeviceOption` when
none is declared. -/
theorem inferDevice_default_placement (s : OpSchema) (d : OperatorDef)
    (h : s.device_inference_function = defaultDeviceInference) :
    (s.InferDevice d).1.length = d.inputs.length ∧
    (s.InferDevice d).2.length = d.outputs.length ∧
    (s.InferDevice d).1.all
      (fun x => decide (x = d.device_option.getD {})) = true ∧
    (s.InferDevice d).2.all
      (fun x => decide (x = d.device_option.getD {})) = true := by
  cases hd : d.device_option <;>
    simp [OpSchema.InferDevice, h, defaultDeviceInference, hd]

/-- Witness for C7: an invocation with one input, two outputs and a
declared device option. -/
theorem inferDevice_default_witness :
    ((({} : OpSchema)).InferDevice
        { inputs := ["a"], outputs := ["b", "c"],
          device_option := some { device_type := 3 } }).1.length = 1 ∧
    ((({} : OpSchema)).InferDevice
        { inputs := ["a"], outputs := ["b", "c"],
          device_option := some { device_type := 3 } }).2.length = 2 ∧
    ((({} : OpSchema)).InferDevice
        { inputs := ["a"], outputs := ["b", "c"],
          device_option := some { device_type := 3 } }).1.all
      (fun x => decide (x = (some { device_type := 3 } : Option DeviceOption).getD {})) = true ∧
    ((({} : OpSchema)).InferDevice
        { inputs := ["a"], outputs := ["b", "c"],
          device_option := some { device_type := 3 } }).2.all
      (fun x => decide (x = (some { device_type := 3 } : Option DeviceOption).getD {})) = true :=
  inferDevice_default_placement {}
    { inputs := ["a"], outputs := ["b", "c"],
      device_option := some { device_type := 3 } } rfl

/-- C8: after `SameNumberOfOutput`, `CalculateOutput` is the identity on
(non-negative) input counts. -/
theorem sameNumberOfOutput_identity (s : OpSchema) (n : Int) (h : 0 ≤ n) :
    (s.SameNumberOfOutput).CalculateOutput n = n := rfl

/-- Witness for C8 at input count 5. -/
theorem sameNumberOfOutput_identity_witness :
    (({} : OpSchema).SameNumberOfOutput).CalculateOutput 5 = 5 :=
  sameNumberOfOutput_identity {} 5 (by decide)

/-- C9: the Sum schema as registered accepts an invocation with 3 inputs
and 1 output whose output 0 aliases input 0; its tensor inference returns
the shape of input 0 unchanged; and it rejects an invocation with 0
inputs. -/
theorem sum_schema_end_to_end :
    sumSchema.Verify { type := "Sum", inputs := ["x", "b", "c"], outputs := ["x"] } = true ∧
    sumSchema.InferTensor { type := "Sum", inputs := ["x", "b", "c"], outputs := ["x"] }
      [{ dims := [2, 3] }, { dims := [4] }, { dims := [5] }] = [{ dims := [2, 3] }] ∧
    sumSchema.Verify { type := "Sum", inputs := [], outputs := ["y"] } = false :=
  ⟨by decide, by decide, by decide⟩

/-- C10: the "cannot compute" sentinel is the ordinary integer -1, so a
configured calculator that returns -1 yields a `CalculateOutput` result
indistinguishable from that of a schema with no calculator configured. -/
theorem sentinel_minus_one_indistinguishable :
    kCannotComputeNumOutputs = -1 ∧
    ∀ n : Int,
      (({} : OpSchema).OutputCalculator (fun _ => -1)).CalculateOutput n =
        kCannotComputeNumOutputs ∧
      ({} : OpSchema).CalculateOutput n = kCannotComputeNumOutputs :=
  ⟨rfl, fun _ => ⟨rfl, rfl⟩⟩

end caffe2
